import Mathlib

/-!
Verification of the smartabasepy event/profile import pipeline.

This file gives a shallow embedding of the Python code in
`smartabasepy/import_.py`, `smartabasepy/import_validate.py`,
`smartabasepy/import_option.py`, `smartabasepy/user_process.py` and
`smartabasepy/utils.py`, and proves properties of the embedded
definitions.  Pandas cell values are modelled by an inductive `Cell`
type (NaN / int / string / non-scalar); DataFrames are modelled
column-wise (an optional list of cells per reserved column) for the
validators and row-wise (a list of records) for the pipeline entry
points.  Fallible Python code (raising `AMSError` / `ValueError`)
is modelled with `Except String`.
-/

namespace Smartabasepy

/-- Model of a pandas cell value: NaN, a numeric scalar, a string, or a
non-scalar object (list/dict/...).  Python floats other than NaN are
modelled by `intVal` (their numeric identity is irrelevant to every
property proved here; only `isinstance(x, (int, float, str))` and
`notna(x)` inspect them). -/
inductive Cell where
  | nan
  | intVal (n : Int)
  | strVal (s : String)
  | nonScalar
  deriving DecidableEq, Repr

/-- `pandas.notna`: false exactly on NaN. -/
def Cell.notna : Cell → Bool
  | .nan => false
  | _ => true

/-- `pandas.isna`: true exactly on NaN. -/
def Cell.isna (c : Cell) : Bool := !c.notna

/-- `isinstance(x, (int, float, str))`.  NaN is a Python float, so it
counts as a scalar type; only non-scalar objects fail this test. -/
def Cell.isScalarType : Cell → Bool
  | .nonScalar => false
  | _ => true

/-- `isinstance(x, str)`. -/
def Cell.isStr : Cell → Bool
  | .strVal _ => true
  | _ => false

/-- `utils._raise_ams_error` message formatting (no endpoint / status
code arguments are passed on the validation paths modelled here). -/
def amsErrorMessage (message fn : String) : String :=
  message ++ " - Function: " ++ fn ++
    ". Please check inputs or contact your site administrator."

/-- Column-wise model of the import DataFrame: each reserved column is
either absent (`none`) or a list of cells, one per row.  `nrows` models
the row count used by the `df.empty` check; form-field columns play no
role in validation and are omitted. -/
structure ImportDF where
  user_id : Option (List Cell)
  event_id : Option (List Cell)
  start_date : Option (List Cell)
  end_date : Option (List Cell)
  start_time : Option (List Cell)
  end_time : Option (List Cell)
  nrows : Nat
  deriving DecidableEq, Repr

/-- `lambda x: isinstance(x, (int, float, str)) and notna(x)` — the
per-cell test applied to the `user_id` column in `_validate_ids`. -/
def validUserIdCell (c : Cell) : Bool := c.isScalarType && c.notna

/-- `lambda x: notna(x) and isinstance(x, (int, float, str)) or isna(x)`
— the per-cell test applied to the `event_id` column (Python `and`
binds tighter than `or`). -/
def validEventIdCell (c : Cell) : Bool := (c.notna && c.isScalarType) || c.isna

/-- `import_validate._validate_ids`.  Requires the `user_id` column and
valid values in it; when `overwrite_existing` is true *and* the
`event_id` column is present, its values must be valid or NaN.  Note
the source guard `if overwrite_existing and "event_id" in df.columns:`
— an absent `event_id` column is not checked at all. -/
def validate_ids (df : ImportDF) (overwrite_existing : Bool) : Except String Unit :=
  match df.user_id with
  | none => .error (amsErrorMessage "user_id column is required" "import_event_data")
  | some col =>
    if !(col.all validUserIdCell) then
      .error (amsErrorMessage "user_id column must contain valid values" "import_event_data")
    else
      match overwrite_existing, df.event_id with
      | true, some ecol =>
        if !(ecol.all validEventIdCell) then
          .error (amsErrorMessage
            "event_id must contain valid values or NaN when overwrite_existing=True"
            "import_event_data")
        else .ok ()
      | _, _ => .ok ()

/-- Splitting a character list on `/`, mirroring `str.split("/")` /
the `/` separators of the strptime format regex (structural recursion,
so concrete instances reduce inside the kernel). -/
def splitSlash : List Char → List (List Char)
  | [] => [[]]
  | c :: rest =>
    if c == '/' then [] :: splitSlash rest
    else
      match splitSlash rest with
      | [] => [[c]]
      | g :: gs => (c :: g) :: gs

/-- Numeric value of an all-digit, non-empty character list. -/
def charsToNat? (cs : List Char) : Option Nat :=
  if cs.isEmpty || !(cs.all Char.isDigit) then none
  else some (cs.foldl (fun a c => a * 10 + (c.toNat - 48)) 0)

/-- CPython `datetime.strptime(s, "%d")` field regex
`(3[01]|[12]\d|0[1-9]|[1-9])`: one or two digit characters denoting a
value in 1..31. -/
def dayFieldOk (cs : List Char) : Bool :=
  (cs.length == 1 || cs.length == 2) &&
    (match charsToNat? cs with
     | some v => 1 ≤ v && v ≤ 31
     | none => false)

/-- CPython `"%m"` field regex `(1[0-2]|0[1-9]|[1-9])`: one or two
digit characters denoting a value in 1..12. -/
def monthFieldOk (cs : List Char) : Bool :=
  (cs.length == 1 || cs.length == 2) &&
    (match charsToNat? cs with
     | some v => 1 ≤ v && v ≤ 12
     | none => false)

/-- Gregorian leap-year rule, as used by `datetime`. -/
def isLeapYear (y : Nat) : Bool := y % 4 == 0 && (y % 100 != 0 || y % 400 == 0)

/-- Days in a month, as enforced by `datetime.__new__`. -/
def daysInMonth (m y : Nat) : Nat :=
  if m == 2 then (if isLeapYear y then 29 else 28)
  else if m == 4 || m == 6 || m == 9 || m == 11 then 30
  else 31

/-- `bool(datetime.strptime(s, "%d/%m/%Y"))` succeeding: the string is
exactly `day/month/year` with a 1–2 digit day in 1..31, a 1–2 digit
month in 1..12, an exactly-4-digit year, year ≥ 1 (`MINYEAR`), and the
day within the month's length for that year. -/
def strptime_ddmmyyyy (s : String) : Bool :=
  match splitSlash s.toList with
  | [d, m, y] =>
    dayFieldOk d && monthFieldOk m && y.length == 4 &&
      (match charsToNat? d, charsToNat? m, charsToNat? y with
       | some dv, some mv, some yv => 1 ≤ yv && dv ≤ daysInMonth mv yv
       | _, _, _ => false)
  | _ => false

/-- `lambda x: (notna(x) and isinstance(x, str)) or isna(x)` — the
strings-or-NaN test applied to date and time columns. -/
def stringOrNaCell (c : Cell) : Bool := (c.notna && c.isStr) || c.isna

/-- `col.dropna()` followed by the `!= ""` filter, as a string list.
This agrees with the source on every input reaching the filter,
because the preceding strings-check has already ensured that every
non-NaN cell is a string. -/
def nonEmptyStrings (col : List Cell) : List String :=
  col.filterMap fun c =>
    match c with
    | .strVal s => if s == "" then none else some s
    | _ => none

/-- One iteration of the loop in `_validate_dates`: check one present
date column. -/
def dateColCheck (colName : String) (col : List Cell) : Except String Unit :=
  if !(col.all stringOrNaCell) then
    .error (amsErrorMessage (colName ++ " column must contain valid strings") "import_event_data")
  else
    if (nonEmptyStrings col).isEmpty then .ok ()
    else if (nonEmptyStrings col).all strptime_ddmmyyyy then .ok ()
    else .error (amsErrorMessage (colName ++ " column must be in format DD/MM/YYYY")
      "import_event_data")

/-- `import_validate._validate_dates`: loop over `start_date` and
`end_date`, skipping absent columns. -/
def validate_dates (df : ImportDF) : Except String Unit :=
  match df.start_date with
  | none =>
    match df.end_date with
    | none => .ok ()
    | some col => dateColCheck "end_date" col
  | some col =>
    match dateColCheck "start_date" col with
    | .error e => .error e
    | .ok () =>
      match df.end_date with
      | none => .ok ()
      | some col2 => dateColCheck "end_date" col2

/-- `import_validate._validate_times`: each present time column must
contain only strings or NaN. -/
def validate_times (df : ImportDF) : Except String Unit :=
  match df.start_time with
  | none =>
    match df.end_time with
    | none => .ok ()
    | some col =>
      if !(col.all stringOrNaCell) then
        .error (amsErrorMessage "end_time column must contain valid strings" "import_event_data")
      else .ok ()
  | some col =>
    if !(col.all stringOrNaCell) then
      .error (amsErrorMessage "start_time column must contain valid strings" "import_event_data")
    else
      match df.end_time with
      | none => .ok ()
      | some col2 =>
        if !(col2.all stringOrNaCell) then
          .error (amsErrorMessage "end_time column must contain valid strings" "import_event_data")
        else .ok ()

/-- `import_validate._validate_import_df`: type check (always a
DataFrame in this model), emptiness check, form-name check, then ids,
dates and times. -/
def validate_import_df (df : ImportDF) (form : String) (overwrite_existing : Bool) :
    Except String Unit :=
  if df.nrows == 0 then
    .error (amsErrorMessage "DataFrame must not be empty" "import_event_data")
  else if form == "" then
    .error (amsErrorMessage "Form must be a non-empty string" "import_event_data")
  else
    match validate_ids df overwrite_existing with
    | .error e => .error e
    | .ok () =>
      match validate_dates df with
      | .error e => .error e
      | .ok () => validate_times df

/-- Row-wise model of one cleaned, identifier-resolved import record:
the reserved columns plus the form-field cells.  The pipeline entry
points in `import_.py` operate on a frame whose reserved columns are
all present; `fields` stands for the remaining form-field columns. -/
structure EventRecord where
  user_id : Cell
  event_id : Cell
  start_date : Cell
  end_date : Cell
  start_time : Cell
  end_time : Cell
  fields : List (String × Cell)
  deriving DecidableEq, Repr

/-- Column-wise view of a row-wise frame (all reserved columns
present), as consumed by the validators. -/
def toImportDF (records : List EventRecord) : ImportDF where
  user_id := some (records.map (·.user_id))
  event_id := some (records.map (·.event_id))
  start_date := some (records.map (·.start_date))
  end_date := some (records.map (·.end_date))
  start_time := some (records.map (·.start_time))
  end_time := some (records.map (·.end_time))
  nrows := records.length

/-- Modelled from the spec: `import_build._build_import_payload`
(`import_build.py` is not under `src/`).  Per spec §4.4 the builder
turns each record into one wire entry, preserving order, and per the
observed design emits one batch payload covering the whole batch;
`existingEventId` is carried exactly when `overwrite_existing` is
true.  Wire entries are identified with the records they came from. -/
structure ImportPayload where
  events : List EventRecord
  overwrite : Bool
  deriving DecidableEq, Repr

/-- Modelled from the spec: one payload covering the whole batch, in
input order. -/
def build_import_payload (records : List EventRecord) (overwrite_existing : Bool) :
    List ImportPayload :=
  [⟨records, overwrite_existing⟩]

/-- One dispatch through the API client: the operation mode string
passed by the entry point and the payload sent. -/
structure DispatchCall where
  mode : String
  payload : ImportPayload
  deriving DecidableEq, Repr

/-- Modelled from the spec: `import_fetch._fetch_import_payloads`
(`import_fetch.py` is not under `src/`).  Per spec §4.5 it dispatches
each payload through the API client sequentially; the model records
the dispatch calls made. -/
def fetch_import_payloads (mode : String) (payloads : List ImportPayload) :
    List DispatchCall :=
  payloads.map fun p => ⟨mode, p⟩

/-- The ASCII whitespace stripped by Python `str.strip()`. -/
def isPyWhitespace (c : Char) : Bool :=
  c == ' ' || c == '\t' || c == '\n' || c == '\r' || c == '\x0b' || c == '\x0c'

/-- ASCII model of Python `str.strip()` (structural on the character
list, so concrete instances reduce inside the kernel). -/
def pyStrip (s : String) : String :=
  String.mk (((s.toList.dropWhile isPyWhitespace).reverse.dropWhile isPyWhitespace).reverse)

/-- ASCII model of Python `str.lower()`. -/
def pyLower (s : String) : String := String.mk (s.toList.map Char.toLower)

/-- `input(...).strip().lower()` applied to the confirmation answer. -/
def normalizeAnswer (s : String) : String := pyLower (pyStrip s)

/-- `confirm in ["y", "yes"]`. -/
def confirmAccepted (s : String) : Bool :=
  normalizeAnswer s == "y" || normalizeAnswer s == "yes"

/-- Outcome of one entry-point run: the dispatch calls actually made
through the API client (in order), and the normal / raising outcome. -/
structure RunResult where
  dispatches : List DispatchCall
  outcome : Except String Unit
  deriving Repr

/-- `import_.update_event_data`, from the point where the cleaned,
identifier-resolved frame exists (`_clean_import_df` and
`_map_id_col_to_user_id` live in files not under `src/` and are
modelled as already applied to the input).  Validates with
`overwrite_existing=True`, builds the payloads, and — in interactive
mode — prompts before dispatch, raising
`AMSError("Update operation cancelled by user.")` when the stripped,
lowercased answer is not `y`/`yes`. -/
def update_event_data (records : List EventRecord) (form : String)
    (interactive_mode : Bool) (answer : String) : RunResult :=
  match validate_import_df (toImportDF records) form true with
  | .error e => ⟨[], .error e⟩
  | .ok () =>
    let payloads := build_import_payload records true
    if interactive_mode && !(confirmAccepted answer) then
      ⟨[], .error "Update operation cancelled by user."⟩
    else
      ⟨fetch_import_payloads "update" payloads, .ok ()⟩

/-- `import_.upsert_event_data`, from the cleaned, identifier-resolved
frame: validates with `overwrite_existing=True`, splits the frame into
`updates_df = df[df["event_id"].notna()]` and
`inserts_df = df[df["event_id"].isna()]`, dispatches the update subset
(confirmation-gated in interactive mode) and then the insert subset,
skipping an empty subset. -/
def upsert_event_data (records : List EventRecord) (form : String)
    (interactive_mode : Bool) (answer : String) : RunResult :=
  match validate_import_df (toImportDF records) form true with
  | .error e => ⟨[], .error e⟩
  | .ok () =>
    let updates := records.filter fun r => r.event_id.notna
    let inserts := records.filter fun r => r.event_id.isna
    let updateStep : Except String (List DispatchCall) :=
      if updates.isEmpty then .ok []
      else if interactive_mode && !(confirmAccepted answer) then
        .error "Update operation cancelled by user."
      else
        .ok (fetch_import_payloads "update" (build_import_payload updates true))
    match updateStep with
    | .error e => ⟨[], .error e⟩
    | .ok d1 =>
      if inserts.isEmpty then ⟨d1, .ok ()⟩
      else ⟨d1 ++ fetch_import_payloads "insert" (build_import_payload inserts false), .ok ()⟩

/-- Events dispatched with a given mode across a run, in order. -/
def dispatchedEvents (mode : String) (r : RunResult) : List EventRecord :=
  ((r.dispatches.filter fun d => d.mode == mode).map fun d => d.payload.events).flatten

/-- One entry of the fetched user directory (`user_df`), with the
columns `_match_users_to_mapping` reads. -/
structure DirUser where
  id : Nat
  username : String
  emailAddress : String
  firstName : String
  lastName : String
  uuid : String
  deriving DecidableEq, Repr

/-- The identifier column driving `_match_users_to_mapping`
(its docstring: one of `username`, `email`, `about`, `uuid`). -/
inductive UserKey where
  | username
  | email
  | about
  | uuid
  deriving DecidableEq, Repr

/-- The Python string value of the key, used in the failure reason. -/
def UserKey.name : UserKey → String
  | .username => "username"
  | .email => "email"
  | .about => "about"
  | .uuid => "uuid"

/-- One row of `mapping_df`: the identifier value plus the secondary
payload columns (collapsed to one string, since the function never
inspects them). -/
structure MappingRow where
  key_val : String
  payload : String
  deriving DecidableEq, Repr

/-- The directory-side join key: for `about`,
`firstName.str.strip() + " " + lastName.str.strip()`, lowercased; for
`email` the `emailAddress` column; otherwise the column of the same
name. -/
def dirKey (k : UserKey) (u : DirUser) : String :=
  match k with
  | .about => pyLower (pyStrip u.firstName ++ " " ++ pyStrip u.lastName)
  | .email => u.emailAddress
  | .username => u.username
  | .uuid => u.uuid

/-- The in-place normalization
`mapping_df[user_key] = mapping_df[user_key].str.strip().str.lower()`
applied before the merge when `user_key == "about"`. -/
def normalizeMappingRow (k : UserKey) (r : MappingRow) : MappingRow :=
  match k with
  | .about => { r with key_val := pyLower (pyStrip r.key_val) }
  | _ => r

/-- A mapping row successfully joined to a directory user id. -/
structure ResolvedRow where
  row : MappingRow
  user_id : Nat
  deriving DecidableEq, Repr

/-- One row of `failed_df` (its constant-`None` `user_id` column is
omitted). -/
structure FailedRow where
  user_key : String
  reason : String
  deriving DecidableEq, Repr

/-- `user_process._match_users_to_mapping`: normalize the mapping
column (for `about`), left-merge against the directory on the join
key — each mapping row expands to one output row per matching
directory entry, in directory order — route rows with no match into
the failure frame with reason `"User not found for <user_key> value"`,
and keep the matched rows with their `user_id`. -/
def match_users_to_mapping (mapping : List MappingRow) (users : List DirUser)
    (k : UserKey) : List ResolvedRow × List FailedRow :=
  let normalized := mapping.map (normalizeMappingRow k)
  let resolved := normalized.flatMap fun r =>
    (users.filter fun u => dirKey k u == r.key_val).map fun u => ⟨r, u.id⟩
  let failed := (normalized.filter fun r =>
      users.all fun u => !(dirKey k u == r.key_val)).map fun r =>
    ⟨r.key_val, "User not found for " ++ k.name ++ " value"⟩
  (resolved, failed)

/-- `import_option.InsertEventOption` after a successful `__init__`. -/
structure InsertEventOption where
  interactive_mode : Bool
  cache : Bool
  id_col : String
  table_fields : List String
  deriving DecidableEq, Repr

/-- `InsertEventOption.__init__`: rejects any `id_col` outside
`["user_id", "about", "username", "email"]` with a `ValueError`;
`table_fields=None` becomes `[]`. -/
def InsertEventOption.init (interactive_mode cache : Bool) (id_col : String)
    (table_fields : Option (List String)) : Except String InsertEventOption :=
  if !(id_col == "user_id" || id_col == "about" || id_col == "username" || id_col == "email") then
    .error "id_col must be \x27user_id\x27, \x27about\x27, \x27username\x27, or \x27email\x27."
  else
    .ok ⟨interactive_mode, cache, id_col, table_fields.getD []⟩

/-- Trailing-`/` stripping, `url.rstrip('/')`. -/
def rstripSlash (s : String) : String :=
  String.mk (s.toList.reverse.dropWhile (· == '/')).reverse

/-- `AMSClient._validate_url`: strip trailing slashes and require a
non-blank site name (last `/`-separated component). -/
def validate_url (url : String) : Except String String :=
  let stripped := rstripSlash url
  let appName := pyStrip (String.mk ((splitSlash stripped.toList).getLastD []))
  if appName == "" then
    .error "Invalid AMS URL. Ensure it includes a valid site name (e.g., \x27https://example.smartabase.com/site_name\x27)."
  else .ok stripped

/-- The observable state of an `AMSClient` relevant here: its
configuration, its authentication flag, and its response cache.  The
cache maps request keys to response data (`none` models an empty JSON
body); lookups take the most recent binding. -/
structure AMSClientModel where
  url : String
  username : String
  authenticated : Bool
  responseCache : List (String × Option String)
  deriving DecidableEq, Repr

/-- `AMSClient.__init__` with credentials supplied, with the login
round trip modelled as succeeding (the configuration identity, not the
authentication protocol, is under verification). -/
def mkAMSClient (url username : String) : Except String AMSClientModel :=
  match validate_url url with
  | .error e => .error e
  | .ok u => .ok ⟨u, username, true, []⟩

/-- Fall-through path of `utils.get_client`: credential check, client
construction, and conditional persistence in the module global. -/
def get_client_fresh (url username password : String) (cache : Bool) :
    Except String (AMSClientModel × Option AMSClientModel) :=
  if username == "" || password == "" then
    .error "No valid credentials provided and no cached client available. Supply \x27username\x27 and \x27password\x27."
  else
    match mkAMSClient url username with
    | .error e => .error e
    | .ok client => .ok (client, if cache then some client else none)

/-- `utils.get_client`, acting on the module-global
`persistent_client` (passed in and returned explicitly).  With
`cache=True` and an authenticated cached client it returns that client
unchanged — without comparing its url or username to the arguments.
Otherwise it requires credentials, builds a fresh client, and stores
it in the global exactly when `cache=True`. -/
def get_client (persistent : Option AMSClientModel) (url username password : String)
    (cache : Bool) : Except String (AMSClientModel × Option AMSClientModel) :=
  match cache, persistent with
  | true, some c =>
    if c.authenticated then .ok (c, some c)
    else get_client_fresh url username password cache
  | _, _ => get_client_fresh url username password cache

/-- The cache key of `AMSClient._fetch`:
`sha256(f"{self.url}{endpoint}{str(payload or '')}")`.  The model uses
the unhashed concatenation (SHA-256 is injective on every input
exercised here). -/
def fetchKey (url endpoint payloadStr : String) : String := url ++ endpoint ++ payloadStr

/-- `AMSClient._fetch`, with the network exchange supplied as the
`status`/`text`/`data` arguments (`text` models `response.text`,
`data` the parsed `response.json()`, `none` standing for an empty
body).  Logs in first when unauthenticated; serves
from the response cache only when `cache=True`; raises on a non-200
status; on success stores the response when `cache=True` and clears
the whole cache when `cache=False`.  Returns the resulting client
state alongside the raising / normal outcome, since the client object
survives a raised `AMSError`. -/
def AMSClient_fetch (st : AMSClientModel) (endpoint payloadStr : String) (cache : Bool)
    (status : Nat) (text : String) (data : Option String) :
    AMSClientModel × Except String (Option String) :=
  let st1 := if st.authenticated then st else { st with authenticated := true }
  let key := fetchKey st1.url endpoint payloadStr
  match cache, st1.responseCache.lookup key with
  | true, some cached => (st1, .ok cached)
  | _, _ =>
    if status != 200 then
      (st1, .error ("Failed to fetch data from " ++ endpoint ++
        " (status " ++ toString status ++ "): " ++ text))
    else if cache then
      ({ st1 with responseCache := (key, data) :: st1.responseCache }, .ok data)
    else
      ({ st1 with responseCache := [] }, .ok data)

/-- Specification-side characterization of an acceptable date cell:
absent (NaN), or a string that is empty or parses as `DD/MM/YYYY`. -/
def dateCellOk (c : Cell) : Bool :=
  match c with
  | .nan => true
  | .strVal s => s == "" || strptime_ddmmyyyy s
  | _ => false

/-- Specification-side characterization of an acceptable date column:
absent, or every cell acceptable. -/
def dateColOk : Option (List Cell) → Bool
  | none => true
  | some col => col.all dateCellOk

/-! ## Supporting lemmas -/

theorem validate_url_ok (url s : String) (h : validate_url url = .ok s) :
    s = rstripSlash url := by
  unfold validate_url at h
  dsimp only at h
  split at h
  · exact Except.noConfusion h
  · cases h
    rfl

theorem all_dateCellOk_eq (col : List Cell) :
    col.all dateCellOk =
      (col.all stringOrNaCell && (nonEmptyStrings col).all strptime_ddmmyyyy) := by
  induction col with
  | nil => rfl
  | cons c rest ih =>
    cases c with
    | nan =>
      simp only [List.all_cons, nonEmptyStrings, List.filterMap_cons] at *
      simpa [dateCellOk, stringOrNaCell, Cell.notna, Cell.isna, Cell.isStr, nonEmptyStrings]
        using ih
    | intVal n =>
      simp [dateCellOk, stringOrNaCell, Cell.notna, Cell.isna, Cell.isStr, nonEmptyStrings]
    | nonScalar =>
      simp [dateCellOk, stringOrNaCell, Cell.notna, Cell.isna, Cell.isStr, nonEmptyStrings]
    | strVal s =>
      by_cases hs : s = ""
      · subst hs
        simp only [List.all_cons, nonEmptyStrings, List.filterMap_cons] at *
        simpa [dateCellOk, stringOrNaCell, Cell.notna, Cell.isna, Cell.isStr, nonEmptyStrings]
          using ih
      · have hsb : (s == "") = false := by simp [hs]
        simp only [List.all_cons, nonEmptyStrings, List.filterMap_cons] at *
        simp [dateCellOk, stringOrNaCell, Cell.notna, Cell.isna, Cell.isStr, nonEmptyStrings,
          hs, ih]
        rw [Bool.and_left_comm, hsb]
        simp

theorem dateColCheck_ok_iff (colName : String) (col : List Cell) :
    dateColCheck colName col = .ok () ↔ col.all dateCellOk = true := by
  rw [all_dateCellOk_eq]
  unfold dateColCheck
  by_cases h1 : col.all stringOrNaCell
  · by_cases h2 : (nonEmptyStrings col).isEmpty
    · have h3 : (nonEmptyStrings col).all strptime_ddmmyyyy = true := by
        rcases List.isEmpty_iff.mp h2 with h
        simp [h]
      simp [h1, h2, h3]
    · by_cases h3 : (nonEmptyStrings col).all strptime_ddmmyyyy <;> simp [h1, h2, h3]
  · simp [h1]

/-! ## Claim theorems -/

/-- Claim C3: the claim says a batch in update mode whose `event_id`
column is entirely absent fails validation with a
missing-record-id-column error.  The code does not enforce this: the
guard `if overwrite_existing and "event_id" in df.columns:` skips the
`event_id` check entirely when the column is absent, so update-mode
validation of an `event_id`-less frame behaves exactly like
insert-mode validation, and the concrete update-mode batch
`{user_id: [1]}` with no `event_id` column passes the full validator.
This contradicts the source comment "For updates/upserts, event_id
must be present". -/
theorem C3_event_id_absence_not_checked :
    (∀ (col : List Cell) (sd ed st et : Option (List Cell)) (n : Nat),
      validate_ids ⟨some col, none, sd, ed, st, et, n⟩ true =
        validate_ids ⟨some col, none, sd, ed, st, et, n⟩ false)
    ∧ validate_import_df ⟨some [Cell.intVal 1], none, none, none, none, none, 1⟩ "f" true =
        .ok () := by
  constructor
  · intro col sd ed st et n
    unfold validate_ids
    rfl
  · rfl

/-- Claim C4: validation of the `start_date`/`end_date` columns
succeeds exactly when each present, non-empty value is a string
parseable as `DD/MM/YYYY`; concretely, `"32/01/2025"` fails with the
invalid-date-format error while an empty-string value and an absent
column both pass. -/
theorem C4_date_validation_characterized :
    (∀ df : ImportDF,
      validate_dates df = .ok () ↔
        (dateColOk df.start_date && dateColOk df.end_date) = true)
    ∧ validate_dates ⟨none, none, some [Cell.strVal "32/01/2025"], none, none, none, 1⟩ =
        .error (amsErrorMessage "start_date column must be in format DD/MM/YYYY"
          "import_event_data")
    ∧ validate_dates ⟨none, none, some [Cell.strVal ""], none, none, none, 1⟩ = .ok ()
    ∧ validate_dates ⟨none, none, none, none, none, none, 1⟩ = .ok () := by
  refine ⟨?_, by rfl, by rfl, by rfl⟩
  intro df
  unfold validate_dates
  cases hsd : df.start_date with
  | none =>
    cases hed : df.end_date with
    | none => simp [dateColOk]
    | some col =>
      have h := dateColCheck_ok_iff "end_date" col
      simp [dateColOk, h]
  | some col =>
    have h := dateColCheck_ok_iff "start_date" col
    cases hchk : dateColCheck "start_date" col with
    | error e =>
      have hne : col.all dateCellOk = false := by
        cases hall : col.all dateCellOk with
        | false => rfl
        | true =>
          rw [← h, hchk] at hall
          exact Except.noConfusion hall
      dsimp only
      rw [hchk]
      simp [dateColOk, hne]
    | ok u =>
      cases u
      have hc : col.all dateCellOk = true := h.mp hchk
      dsimp only
      rw [hchk]
      cases hed : df.end_date with
      | none => simp [dateColOk, hc]
      | some col2 =>
        have h2 := dateColCheck_ok_iff "end_date" col2
        simp [dateColOk, hc, h2]

/-- Claim C5 (corrected): a batch with a null or non-scalar value in
the `user_id` column fails validation — but with the fixed error
message `"user_id column must contain valid values"`, which does not
list the offending row indices; a batch whose `user_id` values are all
non-null scalars passes the check. -/
theorem C5_user_id_check (df : ImportDF) (col : List Cell)
    (h : df.user_id = some col) :
    (validate_ids df false = .ok () ↔ col.all validUserIdCell = true)
    ∧ (col.all validUserIdCell = false →
        validate_ids df false =
          .error (amsErrorMessage "user_id column must contain valid values"
            "import_event_data")) := by
  unfold validate_ids
  rw [h]
  constructor
  · by_cases hall : col.all validUserIdCell <;> simp [hall]
  · intro hall
    simp [hall]

/-- Witness for C5 at a concrete batch: the second record's `user_id`
is NaN, so update-free validation fails with the fixed message. -/
theorem C5_user_id_check_witness :
    validate_ids ⟨some [Cell.intVal 7, Cell.nan], none, none, none, none, none, 2⟩ false =
      .error (amsErrorMessage "user_id column must contain valid values"
        "import_event_data") :=
  (C5_user_id_check ⟨some [Cell.intVal 7, Cell.nan], none, none, none, none, none, 2⟩
    [Cell.intVal 7, Cell.nan] rfl).2 (by decide)

/-- Claim C5, counterexample to the claim as stated: the error raised
for a batch offending at row index 0 is literally identical to the one
raised for a batch offending at row index 1, and the message contains
no digit at all — so the missing-identifier error does not list the
offending row indices. -/
theorem C5_counterexample :
    validate_ids ⟨some [Cell.nan, Cell.intVal 7], none, none, none, none, none, 2⟩ false =
      validate_ids ⟨some [Cell.intVal 7, Cell.nan], none, none, none, none, none, 2⟩ false
    ∧ validate_ids ⟨some [Cell.nan, Cell.intVal 7], none, none, none, none, none, 2⟩ false =
        .error (amsErrorMessage "user_id column must contain valid values"
          "import_event_data")
    ∧ (amsErrorMessage "user_id column must contain valid values"
        "import_event_data").toList.all (fun c => !c.isDigit) = true := by
  refine ⟨rfl, rfl, by decide⟩

/-- Claim C1: on a validated batch, the upsert entry point partitions
the records on `event_id`: exactly the records with a non-null
`event_id` are dispatched through `"update"` calls, exactly the
records with a null `event_id` through `"insert"` calls, and the two
dispatched subsets together are a permutation of the batch (no record
in both, none dropped). -/
theorem C1_upsert_partitions_records (records : List EventRecord) (form answer : String)
    (hval : validate_import_df (toImportDF records) form true = .ok ()) :
    dispatchedEvents "update" (upsert_event_data records form false answer) =
      records.filter (fun r => r.event_id.notna)
    ∧ dispatchedEvents "insert" (upsert_event_data records form false answer) =
        records.filter (fun r => r.event_id.isna)
    ∧ List.Perm
        (dispatchedEvents "update" (upsert_event_data records form false answer) ++
          dispatchedEvents "insert" (upsert_event_data records form false answer))
        records := by
  have hperm :
      List.Perm
        (records.filter (fun r => r.event_id.notna) ++
          records.filter (fun r => r.event_id.isna)) records := by
    have := List.filter_append_perm (fun r : EventRecord => r.event_id.notna) records
    simpa [Cell.isna] using this
  have hu :
      dispatchedEvents "update" (upsert_event_data records form false answer) =
        records.filter (fun r => r.event_id.notna) := by
    unfold upsert_event_data
    rw [hval]
    by_cases h1 : (records.filter (fun r => r.event_id.notna)).isEmpty
    · by_cases h2 : (records.filter (fun r => r.event_id.isna)).isEmpty <;>
        simp [h1, h2, dispatchedEvents, fetch_import_payloads, build_import_payload,
          List.isEmpty_iff.mp h1]
    · by_cases h2 : (records.filter (fun r => r.event_id.isna)).isEmpty <;>
        simp [h1, h2, dispatchedEvents, fetch_import_payloads, build_import_payload]
  have hi :
      dispatchedEvents "insert" (upsert_event_data records form false answer) =
        records.filter (fun r => r.event_id.isna) := by
    unfold upsert_event_data
    rw [hval]
    by_cases h1 : (records.filter (fun r => r.event_id.notna)).isEmpty
    · by_cases h2 : (records.filter (fun r => r.event_id.isna)).isEmpty
      · simp [h1, h2, dispatchedEvents, fetch_import_payloads, build_import_payload,
          List.isEmpty_iff.mp h2]
      · simp [h1, h2, dispatchedEvents, fetch_import_payloads, build_import_payload]
    · by_cases h2 : (records.filter (fun r => r.event_id.isna)).isEmpty
      · simp [h1, h2, dispatchedEvents, fetch_import_payloads, build_import_payload,
          List.isEmpty_iff.mp h2]
      · simp [h1, h2, dispatchedEvents, fetch_import_payloads, build_import_payload]
  refine ⟨hu, hi, ?_⟩
  rw [hu, hi]
  exact hperm

/-- Witness for C1: a two-record batch, one with `event_id = 5`, one
with `event_id` null, dispatches the first through update and the
second through insert. -/
theorem C1_upsert_partitions_records_witness :
    dispatchedEvents "update"
      (upsert_event_data
        [⟨Cell.intVal 1, Cell.intVal 5, Cell.nan, Cell.nan, Cell.nan, Cell.nan, []⟩,
         ⟨Cell.intVal 2, Cell.nan, Cell.nan, Cell.nan, Cell.nan, Cell.nan, []⟩] "f" false "") =
      [⟨Cell.intVal 1, Cell.intVal 5, Cell.nan, Cell.nan, Cell.nan, Cell.nan, []⟩] :=
  (C1_upsert_partitions_records
    [⟨Cell.intVal 1, Cell.intVal 5, Cell.nan, Cell.nan, Cell.nan, Cell.nan, []⟩,
     ⟨Cell.intVal 2, Cell.nan, Cell.nan, Cell.nan, Cell.nan, Cell.nan, []⟩] "f" "" rfl).1

/-- Claim C2: an update-mode call (and an upsert call whose update
subset is non-empty) running interactively, on a batch that passes
validation, fails with `"Update operation cancelled by user."` and
makes zero dispatch calls when the confirmation answer is declined. -/
theorem C2_decline_cancels_without_dispatch (records : List EventRecord)
    (form answer : String)
    (hval : validate_import_df (toImportDF records) form true = .ok ())
    (hans : confirmAccepted answer = false)
    (hupd : (records.filter (fun r => r.event_id.notna)).isEmpty = false) :
    update_event_data records form true answer =
      ⟨[], .error "Update operation cancelled by user."⟩
    ∧ upsert_event_data records form true answer =
        ⟨[], .error "Update operation cancelled by user."⟩ := by
  constructor
  · unfold update_event_data
    rw [hval]
    simp [hans]
  · unfold upsert_event_data
    rw [hval]
    simp [hans, hupd]

/-- Witness for C2: a single-record update-mode batch with the answer
`"n"` is cancelled with no dispatch calls. -/
theorem C2_decline_cancels_without_dispatch_witness :
    update_event_data
      [⟨Cell.intVal 1, Cell.intVal 5, Cell.nan, Cell.nan, Cell.nan, Cell.nan, []⟩]
      "f" true "n" = ⟨[], .error "Update operation cancelled by user."⟩ :=
  (C2_decline_cancels_without_dispatch
    [⟨Cell.intVal 1, Cell.intVal 5, Cell.nan, Cell.nan, Cell.nan, Cell.nan, []⟩]
    "f" "n" rfl rfl rfl).1

/-- Claim C6, counterexample to the claim as stated: with an
authenticated client for `https://a.com/site1` / `alice` cached,
calling the factory with caching enabled for `https://b.com/site2` /
`bob` returns the cached client, whose url and username are not the
ones requested. -/
theorem C6_counterexample :
    get_client (some ⟨"https://a.com/site1", "alice", true, []⟩)
      "https://b.com/site2" "bob" "pw" true =
      .ok (⟨"https://a.com/site1", "alice", true, []⟩,
        some ⟨"https://a.com/site1", "alice", true, []⟩)
    ∧ ("https://a.com/site1" : String) ≠ "https://b.com/site2"
    ∧ ("alice" : String) ≠ "bob" := by
  refine ⟨rfl, by decide, by decide⟩

/-- Claim C6 (corrected): with caching enabled, an authenticated
cached client is returned unchanged regardless of the url and username
requested in the call; only when no client is cached does the factory
build (and, when caching, persist) a client for the requested
configuration, whose url is the slash-stripped requested url and whose
username is the requested username. -/
theorem C6_client_cache_behavior :
    (∀ (c : AMSClientModel) (url u p : String), c.authenticated = true →
      get_client (some c) url u p true = .ok (c, some c))
    ∧ (∀ (url u p : String) (cache : Bool) (client : AMSClientModel),
        u ≠ "" → p ≠ "" → mkAMSClient url u = .ok client →
        get_client none url u p cache =
          .ok (client, if cache then some client else none))
    ∧ (∀ (url u : String) (client : AMSClientModel),
        mkAMSClient url u = .ok client →
        client.url = rstripSlash url ∧ client.username = u ∧
          client.authenticated = true) := by
  refine ⟨?_, ?_, ?_⟩
  · intro c url u p hauth
    simp [get_client, hauth]
  · intro url u p cache client hu hp hmk
    simp [get_client, get_client_fresh, hu, hp, hmk]
  · intro url u client hmk
    unfold mkAMSClient at hmk
    cases hv : validate_url url with
    | error e =>
      rw [hv] at hmk
      exact Except.noConfusion hmk
    | ok s =>
      rw [hv] at hmk
      cases hmk
      exact ⟨validate_url_ok url s hv, rfl, rfl⟩

/-- Witness for C6: both branches at concrete inputs — the cached
client for site1/alice is returned for a site2/bob request, and a
fresh uncached construction uses the requested configuration. -/
theorem C6_client_cache_behavior_witness :
    get_client (some ⟨"https://a.com/site1", "alice", true, []⟩)
      "https://b.com/site2" "bob" "pw" true =
      .ok (⟨"https://a.com/site1", "alice", true, []⟩,
        some ⟨"https://a.com/site1", "alice", true, []⟩)
    ∧ get_client none "https://b.com/site2/" "bob" "pw" false =
        .ok (⟨"https://b.com/site2", "bob", true, []⟩, none) :=
  ⟨(C6_client_cache_behavior.1 ⟨"https://a.com/site1", "alice", true, []⟩
      "https://b.com/site2" "bob" "pw" rfl),
   (C6_client_cache_behavior.2.1 "https://b.com/site2/" "bob" "pw" false
      ⟨"https://b.com/site2", "bob", true, []⟩ (by decide) (by decide) rfl)⟩

/-- Claim C7, counterexample to the claim as stated: `id_col = "uuid"`
is rejected by the import option constructor with a `ValueError`. -/
theorem C7_counterexample :
    InsertEventOption.init false true "uuid" none =
      .error "id_col must be \x27user_id\x27, \x27about\x27, \x27username\x27, or \x27email\x27." :=
  rfl

/-- Claim C7 (corrected): the import entry-point option accepts
exactly the identifier columns `user_id`, `about`, `username` and
`email` — `uuid` is not among them — and on acceptance stores the
supplied fields unchanged (with `table_fields=None` becoming `[]`). -/
theorem C7_id_col_values (im c : Bool) (idc : String) (tf : Option (List String)) :
    ((∃ o, InsertEventOption.init im c idc tf = .ok o) ↔
      (idc = "user_id" ∨ idc = "about" ∨ idc = "username" ∨ idc = "email"))
    ∧ (∀ o, InsertEventOption.init im c idc tf = .ok o →
        o = ⟨im, c, idc, tf.getD []⟩) := by
  unfold InsertEventOption.init
  by_cases h : idc = "user_id" ∨ idc = "about" ∨ idc = "username" ∨ idc = "email"
  · have hb : (idc == "user_id" || idc == "about" || idc == "username" ||
        idc == "email") = true := by
      rcases h with h | h | h | h <;> simp [h]
    refine ⟨?_, ?_⟩
    · simp [hb, h]
    · intro o ho
      simp [hb] at ho
      exact ho.symm
  · push_neg at h
    obtain ⟨h1, h2, h3, h4⟩ := h
    have hb : (idc == "user_id" || idc == "about" || idc == "username" ||
        idc == "email") = false := by
      simp [h1, h2, h3, h4]
    refine ⟨?_, ?_⟩
    · simp [hb, h1, h2, h3, h4]
    · intro o ho
      simp [hb] at ho

/-- Witness for C7: `id_col = "user_id"` is accepted. -/
theorem C7_id_col_values_witness :
    ∃ o, InsertEventOption.init false true "user_id" none = .ok o :=
  (C7_id_col_values false true "user_id" none).1.mpr (Or.inl rfl)

/-- Claim C8: in identifier resolution, every row of the failure frame
carries the reason `"User not found for <column> value"`; every
mapping row with no directory match lands in the failure frame (the
call returns it rather than raising); every mapping row with a match
appears in the resolved output paired with a matching directory user
id; and every resolved output row's user id comes from a directory
entry whose key matches the row. -/
theorem C8_resolution_characterized (mapping : List MappingRow)
    (users : List DirUser) (k : UserKey) :
    (∀ f ∈ (match_users_to_mapping mapping users k).2,
      f.reason = "User not found for " ++ k.name ++ " value")
    ∧ (∀ r ∈ mapping,
        (∀ u ∈ users, dirKey k u ≠ (normalizeMappingRow k r).key_val) →
        (⟨(normalizeMappingRow k r).key_val,
          "User not found for " ++ k.name ++ " value"⟩ : FailedRow) ∈
          (match_users_to_mapping mapping users k).2)
    ∧ (∀ r ∈ mapping, ∀ u ∈ users,
        dirKey k u = (normalizeMappingRow k r).key_val →
        (⟨normalizeMappingRow k r, u.id⟩ : ResolvedRow) ∈
          (match_users_to_mapping mapping users k).1)
    ∧ (∀ p ∈ (match_users_to_mapping mapping users k).1,
        ∃ u ∈ users, p.user_id = u.id ∧ dirKey k u = p.row.key_val) := by
  refine ⟨?_, ?_, ?_, ?_⟩
  · intro f hf
    simp only [match_users_to_mapping, List.mem_map, List.mem_filter] at hf
    obtain ⟨r, _, hfr⟩ := hf
    rw [← hfr]
  · intro r hr hnone
    have hpred : (users.all fun u =>
        !(dirKey k u == (normalizeMappingRow k r).key_val)) = true := by
      rw [List.all_eq_true]
      intro u hu
      simp [hnone u hu]
    simp only [match_users_to_mapping, List.mem_map, List.mem_filter]
    exact ⟨normalizeMappingRow k r, ⟨⟨r, hr, rfl⟩, hpred⟩, rfl⟩
  · intro r hr u hu hmatch
    simp only [match_users_to_mapping, List.mem_flatMap, List.mem_map, List.mem_filter]
    exact ⟨normalizeMappingRow k r, ⟨r, hr, rfl⟩, u, ⟨hu, by simp [hmatch]⟩, rfl⟩
  · intro p hp
    simp only [match_users_to_mapping, List.mem_flatMap, List.mem_map,
      List.mem_filter] at hp
    obtain ⟨r, _, u, ⟨hu, hkey⟩, hpu⟩ := hp
    refine ⟨u, hu, ?_, ?_⟩
    · rw [← hpu]
    · rw [← hpu]
      simpa using hkey

/-- Witness for C8: with a one-user directory, the unmatched mapping
value `nobody` lands in the failure frame with the interpolated
reason. -/
theorem C8_resolution_characterized_witness :
    (⟨"nobody", "User not found for about value"⟩ : FailedRow) ∈
      (match_users_to_mapping [⟨"nobody", "q"⟩]
        [⟨7, "as", "a@x", "alice", "smith", "u1"⟩] .about).2 :=
  (C8_resolution_characterized [⟨"nobody", "q"⟩]
    [⟨7, "as", "a@x", "alice", "smith", "u1"⟩] .about).2.1
    ⟨"nobody", "q"⟩ (by simp) (by decide)

/-- Claim C9: resolution with the `about` key is invariant under
surrounding whitespace and casing — two identifier values equal after
stripping and lowercasing resolve identically against any
directory. -/
theorem C9_about_matching_normalized (users : List DirUser) (v1 v2 pl : String)
    (h : pyLower (pyStrip v1) = pyLower (pyStrip v2)) :
    match_users_to_mapping [⟨v1, pl⟩] users .about =
      match_users_to_mapping [⟨v2, pl⟩] users .about := by
  simp [match_users_to_mapping, normalizeMappingRow, h]

/-- Witness for C9: `"  Alice SMITH "` and `"alice smith"` resolve
identically against a one-user directory. -/
theorem C9_about_matching_normalized_witness :
    match_users_to_mapping [⟨"  Alice SMITH ", "p"⟩]
      [⟨7, "as", "a@x", " alice", "SMITH ", "u1"⟩] .about =
      match_users_to_mapping [⟨"alice smith", "p"⟩]
        [⟨7, "as", "a@x", " alice", "SMITH ", "u1"⟩] .about :=
  C9_about_matching_normalized [⟨7, "as", "a@x", " alice", "SMITH ", "u1"⟩]
    "  Alice SMITH " "alice smith" "p" rfl

/-- Claim C10, counterexample to the claim as stated: a `cache=False`
fetch that hits a non-200 response raises `AMSError` and leaves the
previously cached entry in place — the cache is not empty after the
call, and a later cached call for that request would be served from
the cache. -/
theorem C10_counterexample :
    AMSClient_fetch ⟨"u", "al", true, [(fetchKey "u" "ep" "pl", some "v")]⟩
      "ep" "pl" false 500 "boom" none =
      (⟨"u", "al", true, [(fetchKey "u" "ep" "pl", some "v")]⟩,
        .error ("Failed to fetch data from " ++ "ep" ++ " (status " ++
          toString (500 : Nat) ++ "): " ++ "boom"))
    ∧ (AMSClient_fetch ⟨"u", "al", true, [(fetchKey "u" "ep" "pl", some "v")]⟩
        "ep" "pl" false 500 "boom" none).1.responseCache ≠ [] := by
  refine ⟨rfl, by decide⟩

/-- Claim C10 (corrected): a `cache=False` fetch that completes
successfully (HTTP 200) leaves the client's response cache completely
empty, whatever was cached before; a failing request (non-200 status)
raises and leaves the cache exactly as it was. -/
theorem C10_fetch_nocache_behavior :
    (∀ (st : AMSClientModel) (ep pl text : String) (d : Option String),
      AMSClient_fetch st ep pl false 200 text d =
        (⟨st.url, st.username, true, []⟩, .ok d))
    ∧ (∀ (st : AMSClientModel) (ep pl text : String) (d : Option String)
        (status : Nat), status ≠ 200 →
        AMSClient_fetch st ep pl false status text d =
          (⟨st.url, st.username, true, st.responseCache⟩,
            .error ("Failed to fetch data from " ++ ep ++ " (status " ++
              toString status ++ "): " ++ text))) := by
  constructor
  · intro st ep pl text d
    cases st with
    | mk url username authenticated responseCache =>
      cases authenticated <;> simp [AMSClient_fetch]
  · intro st ep pl text d status hs
    cases st with
    | mk url username authenticated responseCache =>
      cases authenticated <;> simp [AMSClient_fetch, hs]

/-- Witness for C10: a failing `cache=False` fetch at concrete inputs
leaves the single cached entry untouched. -/
theorem C10_fetch_nocache_behavior_witness :
    AMSClient_fetch ⟨"u", "al", true, [("k", some "v")]⟩ "ep" "pl" false 404 "gone" none =
      (⟨"u", "al", true, [("k", some "v")]⟩,
        .error ("Failed to fetch data from " ++ "ep" ++ " (status " ++
          toString (404 : Nat) ++ "): " ++ "gone")) :=
  C10_fetch_nocache_behavior.2 ⟨"u", "al", true, [("k", some "v")]⟩
    "ep" "pl" "gone" none 404 (by decide)

end Smartabasepy
